import Mathlib

/-!
# Verification of the `WebSocketClient` JSON-RPC transport adapter

Shallow embedding of `src/packages/client/src/clients/websocket.ts`.

The class `WebSocketClient` owns five pieces of mutable state
(`messageId`, `messageRequests`, `websocket`, `connected`, `queue`) and
exposes `connect`, `notify` and `rpc`; `connect` installs three transport
hooks (`onopen`, `onclose`, `onmessage`).  We embed the state as a
structure `WebSocketClient`, each method and hook as a state-transformer
returning the successor state together with the list of observable
effects it performs (transport sends, event emissions, promise
settlements, thrown errors), and arbitrary interleavings of calls and
transport events as a `run` over a list of `Act`ions.

JavaScript request objects are passed and mutated *by reference*
(`message.jsonrpc = '2.0'`, `message.id = id`), so request objects live
in an explicit object store `heap : Ref → RpcRequest`, and the queue
holds references, exactly as `this.queue.push(message)` stores the
caller's own object.
-/

/-- A JSON value, as produced by `JSON.parse`.  The extra constructor
`undef` stands for JavaScript `undefined`, which arises from
destructuring an array past its length (`const [event, payload] = r`);
`JSON.parse` itself never produces it. -/
inductive Value where
  | undef : Value
  | null : Value
  | bool : Bool → Value
  | num : Int → Value
  | str : String → Value
  | arr : List Value → Value
  | obj : List (String × Value) → Value
deriving Repr, Inhabited

/-- `RpcError` from the source: `{code: number, message: string, data?: any}`. -/
structure RpcError where
  code : Int
  message : String
  data : Option Value := none
deriving Repr

/-- `RpcRequest` from the source:
`{jsonrpc?: string, id?: number, method: string, params?: any}`. -/
structure RpcRequest where
  jsonrpc : Option String := none
  id : Option Nat := none
  method : String
  params : Option Value := none
deriving Repr

/-- The parsed inbound message `msg = JSON.parse(e.data)` as consumed by the
`onmessage` hook, which reads only `msg.id`, `msg.error` and `msg.result`.
`id` is an arbitrary number in JavaScript, so we give it type `Int`
(`msg.id > 0` is a real test there).  `error := none` covers both an absent
and a falsy (`null`) `error` field, matching the truthiness test
`else if (msg.error)`; likewise the code only inspects `msg.result` when
it is present (`else if (msg.result)`). -/
structure InboundMsg where
  id : Option Int := none
  result : Option Value := none
  error : Option RpcError := none
deriving Repr

/-- References into the JavaScript object store for request objects. -/
abbrev Ref := Nat

/-- Promise settlement performed by the `resolve` wrapper registered in `rpc`:
`reject(new Error(response.error.message))` builds a JavaScript `Error` from
the message string alone, so a rejection carries exactly a message string;
`_resolve(response.result)` resolves with the (possibly absent) result. -/
inductive Settled where
  | resolved : Option Value → Settled
  | rejected : String → Settled
deriving Repr

/-- Observable effects of one method call or transport hook invocation:
- `send m`: `this.websocket.send(JSON.stringify(message))`; the payload is
  the value of the request object at serialization time;
- `closeSocket w` / `newSocket w url`: `this.websocket.close()` and
  `new WebSocket(url)`, with `w` the session's identity;
- `emit ev args`: `this.emit(...)` (both the `open`/`close` lifecycle
  signals and broadcast dispatch go through the same emitter);
- `settle i o`: the promise registered under id `i` settles with outcome `o`;
- `throwErr s`: `throw new Error(s)` escaping the `onmessage` handler. -/
inductive Effect where
  | send : RpcRequest → Effect
  | closeSocket : Nat → Effect
  | newSocket : Nat → String → Effect
  | emit : Value → List Value → Effect
  | settle : Nat → Settled → Effect
  | throwErr : String → Effect
deriving Repr

/-- The mutable state of a `WebSocketClient` instance, together with the
object store for request objects (`heap`) and an allocator for transport
session identities (`nextSession`), which model the JavaScript heap.
`messageRequests : Map<number, PromiseCache>` is modelled by its key set
(kept as a duplicate-free insertion-ordered list, exactly the key set of a
JavaScript `Map`): every value ever stored in it is the one `resolve`
wrapper closure built in `rpc`, embedded below as `resolveWrapper`.
`websocket` is `none` before the first `connect` (the field is declared
but unassigned, hence `undefined`, i.e. falsy in `if (this.websocket)`). -/
structure WebSocketClient where
  messageId : Nat
  messageRequests : List Nat
  websocket : Option Nat
  connected : Bool
  queue : List Ref
  heap : Ref → RpcRequest
  nextSession : Nat

/-- Key set of `Map.set k`: inserting an existing key leaves the key set
unchanged, a new key is appended in insertion order. -/
def mapSet (ks : List Nat) (k : Nat) : List Nat :=
  if k ∈ ks then ks else ks ++ [k]

/-- Key set of `Map.delete k`. -/
def mapDelete (ks : List Nat) (k : Nat) : List Nat :=
  ks.filter (fun x => x ≠ k)

/-- Heap update: the store after assigning to one object's fields. -/
def writeHeap (h : Ref → RpcRequest) (r : Ref) (v : RpcRequest) : Ref → RpcRequest :=
  fun x => if x = r then v else h x

/-- `message.jsonrpc = '2.0'` — the protocol-version stamp in `notify`. -/
def stamp (m : RpcRequest) : RpcRequest :=
  { m with jsonrpc := some "2.0" }

namespace WebSocketClient

/-- The constructor: `messageId = 0`, empty request map, `connected = false`,
empty queue.  The object store is supplied by the environment. -/
def initialState (h : Ref → RpcRequest) : WebSocketClient :=
  { messageId := 0
    messageRequests := []
    websocket := none
    connected := false
    queue := []
    heap := h
    nextSession := 0 }

/-- `notify(message)`: stamp `message.jsonrpc = '2.0'` in place, then either
queue the reference (while disconnected) or serialize and send. -/
def notify (s : WebSocketClient) (r : Ref) : WebSocketClient × List Effect :=
  let s := { s with heap := writeHeap s.heap r (stamp (s.heap r)) }
  if s.connected = false then
    ({ s with queue := s.queue ++ [r] }, [])
  else
    (s, [.send (s.heap r)])

/-- `rpc(message)`: increment `messageId`, register the promise's resolve
wrapper under the new id (the `Promise` executor runs synchronously, so the
entry exists before transmission), write `message.id = id` in place, then
delegate to `notify`.  Returns the assigned id alongside state and effects. -/
def rpc (s : WebSocketClient) (r : Ref) : WebSocketClient × List Effect × Nat :=
  let id := s.messageId + 1
  let s := { s with messageId := id }
  let s := { s with messageRequests := mapSet s.messageRequests id }
  let s := { s with heap := writeHeap s.heap r { s.heap r with id := some id } }
  ((notify s r).1, (notify s r).2, id)

/-- `connect(url)`: close any prior socket, allocate a new one and install
the three hooks.  Note that the body mutates neither `connected` nor any
other client field besides `websocket`. -/
def connect (s : WebSocketClient) (url : String) : WebSocketClient × List Effect :=
  let closeEffs : List Effect :=
    match s.websocket with
    | some w => [.closeSocket w]
    | none => []
  ({ s with websocket := some s.nextSession, nextSession := s.nextSession + 1 },
   closeEffs ++ [.newSocket s.nextSession url])

/-- The `while (this.queue.length > 0)` drain loop of the `onopen` hook:
shift the head of the queue and `notify` it.  `fuel` bounds the number of
iterations; `onopen` passes the queue length, which is exactly the number
of iterations the JavaScript loop performs while `connected` stays true
(each iteration then shortens the queue by one). -/
def drainLoop : Nat → WebSocketClient → WebSocketClient × List Effect
  | 0, s => (s, [])
  | fuel + 1, s =>
    match s.queue with
    | [] => (s, [])
    | r :: rest =>
      let s1 := { s with queue := rest }
      let s2 := (notify s1 r).1
      ((drainLoop fuel s2).1, (notify s1 r).2 ++ (drainLoop fuel s2).2)

/-- The `onopen` hook: set `connected = true`, drain the queue through
`notify`, then `emit('open')`. -/
def onopen (s : WebSocketClient) : WebSocketClient × List Effect :=
  let s1 := { s with connected := true }
  ((drainLoop s1.queue.length s1).1,
   (drainLoop s1.queue.length s1).2 ++ [.emit (.str "open") []])

/-- The `onclose` hook: set `connected = false` and `emit('close')`. -/
def onclose (s : WebSocketClient) : WebSocketClient × List Effect :=
  ({ s with connected := false }, [.emit (.str "close") []])

/-- The `resolve` wrapper stored (for every entry) in `messageRequests` by
`rpc`: called with the full parsed message, it rejects with
`new Error(response.error.message)` when `response.error` is present and
otherwise resolves with `response.result`. -/
def resolveWrapper (response : InboundMsg) : Settled :=
  match response.error with
  | some e => .rejected e.message
  | none => .resolved response.result

/-- The guard `msg.id > 0 && this.messageRequests.has(msg.id)` of the
`onmessage` hook. -/
def matchesPending (s : WebSocketClient) (msg : InboundMsg) : Bool :=
  match msg.id with
  | some i => decide (0 < i) && decide (i.toNat ∈ s.messageRequests)
  | none => false

/-- The broadcast-classification tail of the `onmessage` hook (the branches
after the pending-id match fails): a present error throws; otherwise a
present result is dispatched only when `Array.isArray(msg.result)`, emitting
the first destructured element as event name and the second as payload
(`undefined` past the array's length); anything else is ignored. -/
def broadcastDispatch (msg : InboundMsg) : List Effect :=
  match msg.error with
  | some e => [.throwErr e.message]
  | none =>
    match msg.result with
    | some (.arr xs) => [.emit (xs.getD 0 .undef) [xs.getD 1 .undef]]
    | some _ => []
    | none => []

/-- The `onmessage` hook: when `msg.id > 0` and the id is pending, invoke
that entry's `resolve` wrapper and delete the entry; otherwise fall through
to broadcast classification, which leaves the client state untouched. -/
def onmessage (s : WebSocketClient) (msg : InboundMsg) : WebSocketClient × List Effect :=
  match msg.id with
  | some i =>
    if 0 < i ∧ i.toNat ∈ s.messageRequests then
      ({ s with messageRequests := mapDelete s.messageRequests i.toNat },
       [.settle i.toNat (resolveWrapper msg)])
    else
      (s, broadcastDispatch msg)
  | none => (s, broadcastDispatch msg)

end WebSocketClient

/-- One interaction with the client: a public method call or the transport
delivering an event to the corresponding hook. -/
inductive Act where
  | notify : Ref → Act
  | rpcCall : Ref → Act
  | connect : String → Act
  | onopen : Act
  | onclose : Act
  | onmessage : InboundMsg → Act

/-- Dispatch one interaction. -/
def step (s : WebSocketClient) (a : Act) : WebSocketClient × List Effect :=
  match a with
  | .notify r => s.notify r
  | .rpcCall r => ((s.rpc r).1, (s.rpc r).2.1)
  | .connect url => s.connect url
  | .onopen => s.onopen
  | .onclose => s.onclose
  | .onmessage m => s.onmessage m

/-- Run a sequence of interactions, concatenating the effect traces.  The
component is single-threaded and event-driven, so every behaviour is such a
sequence. -/
def run (s : WebSocketClient) : List Act → WebSocketClient × List Effect
  | [] => (s, [])
  | a :: acts =>
    ((run (step s a).1 acts).1, (step s a).2 ++ (run (step s a).1 acts).2)

/-! ## Helper lemmas -/

/-- Iterated in-place protocol stamping of a list of request objects, the
cumulative heap effect of notifying each reference in turn. -/
def stampHeap (h : Ref → RpcRequest) (rs : List Ref) : Ref → RpcRequest :=
  rs.foldl (fun h r => writeHeap h r (stamp (h r))) h

theorem stamp_stamp (m : RpcRequest) : stamp (stamp m) = stamp m := rfl

theorem stamp_writeHeap (h : Ref → RpcRequest) (r r' : Ref) :
    stamp (writeHeap h r (stamp (h r)) r') = stamp (h r') := by
  unfold writeHeap
  by_cases hrr : r' = r
  · subst hrr; simp [stamp_stamp]
  · simp [hrr]

theorem stampHeap_nil (h : Ref → RpcRequest) : stampHeap h [] = h := rfl

theorem stampHeap_cons (h : Ref → RpcRequest) (r : Ref) (rs : List Ref) :
    stampHeap h (r :: rs) = stampHeap (writeHeap h r (stamp (h r))) rs := rfl

theorem stamp_stampHeap (rs : List Ref) :
    ∀ (h : Ref → RpcRequest) (r' : Ref), stamp (stampHeap h rs r') = stamp (h r') := by
  induction rs with
  | nil => intro h r'; rfl
  | cons a rs ih => intro h r'; rw [stampHeap_cons, ih, stamp_writeHeap]

namespace WebSocketClient

theorem notify_connected (s : WebSocketClient) (r : Ref) (hc : s.connected = true) :
    s.notify r = ({ s with heap := writeHeap s.heap r (stamp (s.heap r)) },
                  [.send (stamp (s.heap r))]) := by
  unfold notify
  simp [hc, writeHeap]

theorem notify_disconnected (s : WebSocketClient) (r : Ref) (hc : s.connected = false) :
    s.notify r = ({ s with heap := writeHeap s.heap r (stamp (s.heap r)),
                           queue := s.queue ++ [r] }, []) := by
  unfold notify
  simp [hc]

/-- When the client is connected, the drain loop run on the full queue
length empties the queue, stamps every queued object in place and sends
each queued object, stamped, in queue order. -/
theorem drainLoop_drains (q : List Ref) :
    ∀ (s : WebSocketClient), s.connected = true → s.queue = q →
    drainLoop q.length s =
      ({ s with queue := [], heap := stampHeap s.heap q },
       q.map (fun r => Effect.send (stamp (s.heap r)))) := by
  induction q with
  | nil =>
    rintro ⟨mid, mreq, ws, conn, qu, hp, ns⟩ hc hq
    simp only at hc hq
    subst hc hq
    rfl
  | cons a q' ih =>
    rintro ⟨mid, mreq, ws, conn, qu, hp, ns⟩ hc hq
    simp only at hc hq
    subst hc hq
    rw [List.length_cons, drainLoop]
    simp only
    rw [notify_connected _ _ rfl]
    simp only
    rw [ih _ rfl rfl]
    simp [stampHeap_cons, stamp_writeHeap, writeHeap]
    intro x _
    by_cases hxa : x = a
    · subst hxa; simp [stamp_stamp]
    · simp [hxa]

end WebSocketClient

theorem run_append (s : WebSocketClient) (l1 l2 : List Act) :
    run s (l1 ++ l2) =
      ((run (run s l1).1 l2).1, (run s l1).2 ++ (run (run s l1).1 l2).2) := by
  induction l1 generalizing s with
  | nil => simp [run]
  | cons a l1 ih => simp [run, ih, List.append_assoc]

namespace WebSocketClient

/-- Closed form of the `onopen` hook: connected becomes true, the queue is
emptied, every queued object is stamped in place, the queued objects are
sent stamped in queue order, and only then is `open` emitted. -/
theorem onopen_spec (s : WebSocketClient) :
    s.onopen = ({ s with connected := true, queue := [], heap := stampHeap s.heap s.queue },
                s.queue.map (fun r => Effect.send (stamp (s.heap r)))
                  ++ [.emit (.str "open") []]) := by
  unfold onopen
  dsimp only
  rw [drainLoop_drains s.queue { s with connected := true } rfl rfl]

theorem notify_messageId (s : WebSocketClient) (r : Ref) :
    (s.notify r).1.messageId = s.messageId := by
  unfold notify
  dsimp only
  split <;> rfl

theorem notify_messageRequests (s : WebSocketClient) (r : Ref) :
    (s.notify r).1.messageRequests = s.messageRequests := by
  unfold notify
  dsimp only
  split <;> rfl

theorem notify_connected_flag (s : WebSocketClient) (r : Ref) :
    (s.notify r).1.connected = s.connected := by
  unfold notify
  dsimp only
  split <;> rfl

/-- A sequence of `notify` calls issued while disconnected performs no
transport sends: it only stamps the objects in place and appends the
references to the queue in call order. -/
theorem run_notifies_disconnected (rs : List Ref) :
    ∀ (s : WebSocketClient), s.connected = false →
    run s (rs.map Act.notify) =
      ({ s with queue := s.queue ++ rs, heap := stampHeap s.heap rs }, []) := by
  induction rs with
  | nil =>
    intro s hc
    simp [run, stampHeap_nil]
  | cons a rs ih =>
    intro s hc
    simp only [List.map_cons, run, step]
    rw [notify_disconnected _ _ hc]
    dsimp only
    rw [ih _ (by simpa using hc)]
    simp [stampHeap_cons, List.append_assoc]

end WebSocketClient

namespace WebSocketClient

/-- When the guard `msg.id > 0 && messageRequests.has(msg.id)` holds, the
`onmessage` hook settles exactly the matching entry and deletes it. -/
theorem onmessage_matching (s : WebSocketClient) (m : InboundMsg) (i : Int)
    (hid : m.id = some i) (hpos : 0 < i) (hmem : i.toNat ∈ s.messageRequests) :
    s.onmessage m = ({ s with messageRequests := mapDelete s.messageRequests i.toNat },
                     [.settle i.toNat (resolveWrapper m)]) := by
  unfold onmessage
  rw [hid]
  simp [hpos, hmem]

/-- When the guard fails, the `onmessage` hook falls through to broadcast
classification and leaves the client state unchanged. -/
theorem onmessage_not_matching (s : WebSocketClient) (m : InboundMsg)
    (h : matchesPending s m = false) :
    s.onmessage m = (s, broadcastDispatch m) := by
  unfold onmessage
  unfold matchesPending at h
  cases hid : m.id with
  | none => rfl
  | some i =>
    rw [hid] at h
    simp only [Bool.and_eq_false_iff, decide_eq_false_iff_not] at h
    have hcond : ¬ (0 < i ∧ i.toNat ∈ s.messageRequests) := by tauto
    simp [hcond]

theorem onmessage_messageId (s : WebSocketClient) (m : InboundMsg) :
    (s.onmessage m).1.messageId = s.messageId := by
  unfold onmessage
  cases hid : m.id with
  | none => rfl
  | some i =>
    dsimp only
    split <;> rfl

theorem onmessage_queue (s : WebSocketClient) (m : InboundMsg) :
    (s.onmessage m).1.queue = s.queue := by
  unfold onmessage
  cases hid : m.id with
  | none => rfl
  | some i =>
    dsimp only
    split <;> rfl

theorem onmessage_connected (s : WebSocketClient) (m : InboundMsg) :
    (s.onmessage m).1.connected = s.connected := by
  unfold onmessage
  cases hid : m.id with
  | none => rfl
  | some i =>
    dsimp only
    split <;> rfl

theorem notify_queue (s : WebSocketClient) (r : Ref) :
    (s.notify r).1.queue = if s.connected = false then s.queue ++ [r] else s.queue := by
  unfold notify
  dsimp only
  by_cases h : s.connected = false <;> simp [h]

/-- `rpc` is the registration steps followed by `notify` on the updated
state; this unfolds the delegation for reuse of the `notify` lemmas. -/
theorem rpc_state (s : WebSocketClient) (r : Ref) :
    s.rpc r =
      ((({ s with messageId := s.messageId + 1,
                  messageRequests := mapSet s.messageRequests (s.messageId + 1),
                  heap := writeHeap s.heap r
                    { s.heap r with id := some (s.messageId + 1) } } : WebSocketClient).notify r).1,
       (({ s with messageId := s.messageId + 1,
                  messageRequests := mapSet s.messageRequests (s.messageId + 1),
                  heap := writeHeap s.heap r
                    { s.heap r with id := some (s.messageId + 1) } } : WebSocketClient).notify r).2,
       s.messageId + 1) := rfl

theorem rpc_messageId (s : WebSocketClient) (r : Ref) :
    (s.rpc r).1.messageId = s.messageId + 1 := by
  rw [rpc_state]
  exact notify_messageId _ r

end WebSocketClient

/-- `messageId` never decreases under any interaction; only `rpc`
increments it. -/
theorem step_messageId_le (s : WebSocketClient) (a : Act) :
    s.messageId ≤ (step s a).1.messageId := by
  cases a with
  | notify r => rw [step, WebSocketClient.notify_messageId]
  | rpcCall r =>
    show s.messageId ≤ ((s.rpc r).1, (s.rpc r).2.1).1.messageId
    rw [WebSocketClient.rpc_messageId]
    exact Nat.le_succ _
  | connect url => exact Nat.le_refl _
  | onopen =>
    show s.messageId ≤ s.onopen.1.messageId
    rw [WebSocketClient.onopen_spec]
  | onclose => exact Nat.le_refl _
  | onmessage m =>
    show s.messageId ≤ (s.onmessage m).1.messageId
    rw [WebSocketClient.onmessage_messageId]

/-- Broadcast classification never settles a promise: its only effects are
a thrown error or an event emission. -/
theorem broadcastDispatch_no_settle (m : InboundMsg) :
    ∀ e ∈ WebSocketClient.broadcastDispatch m, ∀ k o, e ≠ Effect.settle k o := by
  unfold WebSocketClient.broadcastDispatch
  cases herr : m.error with
  | some e => simp
  | none =>
    cases hres : m.result with
    | none => simp
    | some v => cases v <;> simp

/-- The spec's queue invariant: between interactions (no drain in
progress), a connected client has an empty outbound queue. -/
def QueueInv (s : WebSocketClient) : Prop :=
  s.connected = true → s.queue = []

theorem queueInv_step (s : WebSocketClient) (a : Act) (hInv : QueueInv s) :
    QueueInv (step s a).1 := by
  cases a with
  | notify r =>
    intro hc
    rw [step] at hc ⊢
    rw [WebSocketClient.notify_connected_flag] at hc
    rw [WebSocketClient.notify_queue, hc]
    simp
    exact hInv hc
  | rpcCall r =>
    intro hc
    have hc' : (s.rpc r).1.connected = true := hc
    have hs : s.connected = true := by
      rw [WebSocketClient.rpc_state] at hc'
      dsimp only at hc'
      rw [WebSocketClient.notify_connected_flag] at hc'
      exact hc'
    show (s.rpc r).1.queue = []
    rw [WebSocketClient.rpc_state]
    dsimp only
    rw [WebSocketClient.notify_queue]
    dsimp only
    rw [hs]
    simp
    exact hInv hs
  | connect url => intro hc; exact hInv hc
  | onopen =>
    intro _
    show s.onopen.1.queue = []
    rw [WebSocketClient.onopen_spec]
  | onclose => intro hc; exact absurd hc (by simp [step, WebSocketClient.onclose])
  | onmessage m =>
    intro hc
    show (s.onmessage m).1.queue = []
    rw [WebSocketClient.onmessage_queue]
    rw [step, WebSocketClient.onmessage_connected] at hc
    exact hInv hc

theorem queueInv_run (s : WebSocketClient) (acts : List Act) (hInv : QueueInv s) :
    QueueInv (run s acts).1 := by
  induction acts generalizing s with
  | nil => exact hInv
  | cons a acts ih =>
    rw [run]
    exact ih _ (queueInv_step s a hInv)

/-- Recognizer for `rpc` interactions. -/
def isRpcCall : Act → Bool
  | .rpcCall _ => true
  | _ => false

/-- The identifiers handed out by `rpc` along a run, in call order: each
`rpc` interaction contributes the id it returns (`(s.rpc r).2.2`). -/
def assignedIds : WebSocketClient → List Act → List Nat
  | _, [] => []
  | s, a :: acts =>
    (match a with
     | Act.rpcCall r => [(s.rpc r).2.2]
     | _ => []) ++ assignedIds (step s a).1 acts

theorem rpc_id (s : WebSocketClient) (r : Ref) :
    (s.rpc r).2.2 = s.messageId + 1 := rfl

theorem assignedIds_gt (acts : List Act) :
    ∀ (s : WebSocketClient), ∀ i ∈ assignedIds s acts, s.messageId < i := by
  induction acts with
  | nil => intro s i hi; simp [assignedIds] at hi
  | cons a acts ih =>
    intro s i hi
    have hstep : ∀ j ∈ assignedIds (step s a).1 acts, s.messageId < j := fun j hj =>
      Nat.lt_of_le_of_lt (step_messageId_le s a) (ih _ j hj)
    cases a
    case rpcCall r =>
      simp only [assignedIds, List.mem_append, List.mem_singleton] at hi
      rcases hi with h | h
      · rw [h, rpc_id]
        exact Nat.lt_succ_self _
      · exact hstep i h
    all_goals
      simp only [assignedIds, List.nil_append] at hi
    all_goals
      exact hstep i hi

theorem assignedIds_pairwise (acts : List Act) :
    ∀ (s : WebSocketClient), List.Pairwise (· < ·) (assignedIds s acts) := by
  induction acts with
  | nil => intro s; simp [assignedIds]
  | cons a acts ih =>
    intro s
    cases a
    case rpcCall r =>
      simp only [assignedIds]
      rw [List.pairwise_append]
      refine ⟨by simp, ih _, ?_⟩
      intro x hx y hy
      simp only [List.mem_singleton] at hx
      rw [hx, rpc_id]
      have hgt : (s.rpc r).1.messageId < y := assignedIds_gt acts _ y hy
      rw [WebSocketClient.rpc_messageId] at hgt
      exact hgt
    all_goals
      simp only [assignedIds, List.nil_append]
    all_goals
      exact ih _

theorem assignedIds_length (acts : List Act) :
    ∀ (s : WebSocketClient),
      (assignedIds s acts).length = acts.countP isRpcCall := by
  induction acts with
  | nil => intro s; simp [assignedIds]
  | cons a acts ih =>
    intro s
    cases a
    all_goals
      simp [assignedIds, List.countP_cons, isRpcCall, ih]

namespace WebSocketClient

/-- The effect list of `connect`, exposed for reasoning. -/
theorem connect_effects (s : WebSocketClient) (url : String) :
    (s.connect url).2 = (match s.websocket with
      | some w => [Effect.closeSocket w]
      | none => []) ++ [Effect.newSocket s.nextSession url] := rfl

theorem notify_heap (s : WebSocketClient) (r : Ref) :
    (s.notify r).1.heap = writeHeap s.heap r (stamp (s.heap r)) := by
  unfold notify
  dsimp only
  split <;> rfl

end WebSocketClient

/-! ## Concrete sample data for witnesses -/

/-- A sample object store: every reference holds a bare `ping` request. -/
def sampleHeap : Ref → RpcRequest := fun _ => { method := "ping" }

/-- A connected client with no pending entries. -/
def sampleIdle : WebSocketClient :=
  { messageId := 0, messageRequests := [], websocket := some 0, connected := true,
    queue := [], heap := sampleHeap, nextSession := 1 }

/-- A connected client with one pending RPC entry, id 1. -/
def samplePending : WebSocketClient :=
  { messageId := 1, messageRequests := [1], websocket := some 0, connected := true,
    queue := [], heap := sampleHeap, nextSession := 1 }

/-- Written from the spec's words, to state C3: a "two-element ordered pair"
is an array of exactly two elements. -/
def isTwoElementPair : Value → Bool
  | .arr [_, _] => true
  | _ => false

/-- `Array.isArray`, the dispatch guard actually used by the source. -/
def isArray : Value → Bool
  | .arr _ => true
  | _ => false

/-! ## Claims -/

/-- C6: an inbound message that carries an error object but no identifier
matching a pending entry raises immediately as a fatal condition: the
`onmessage` hook's sole effect is the thrown `Error` with the server's
message — it is not routed to any completion handle (no `settle` effect) —
and the client state, in particular the pending table, is unchanged. -/
theorem C6_uncorrelated_error_fatal (s : WebSocketClient) (m : InboundMsg) (e : RpcError)
    (hmatch : WebSocketClient.matchesPending s m = false) (herr : m.error = some e) :
    s.onmessage m = (s, [Effect.throwErr e.message]) := by
  rw [WebSocketClient.onmessage_not_matching s m hmatch]
  unfold WebSocketClient.broadcastDispatch
  rw [herr]

/-- Witness for C6: a concrete uncorrelated error message throws. -/
theorem C6_witness :
    sampleIdle.onmessage { error := some { code := -32700, message := "parse error" } } =
      (sampleIdle, [Effect.throwErr "parse error"]) :=
  C6_uncorrelated_error_fatal sampleIdle
    { error := some { code := -32700, message := "parse error" } }
    { code := -32700, message := "parse error" } rfl rfl

/-- C9: calling `connect` again replaces the transport session but leaves
the pending-request table untouched: every entry pending before the call is
still pending immediately after, and no effect of `connect` settles any
promise. -/
theorem C9_connect_keeps_pending (s : WebSocketClient) (url : String) :
    (s.connect url).1.messageRequests = s.messageRequests ∧
    (s.connect url).1.websocket = some s.nextSession ∧
    ∀ e ∈ (s.connect url).2, ∀ k o, e ≠ Effect.settle k o := by
  refine ⟨rfl, rfl, ?_⟩
  intro e he k o
  rw [WebSocketClient.connect_effects] at he
  rcases List.mem_append.1 he with h | h
  · rcases hws : s.websocket with _ | w <;> rw [hws] at h
    · simp at h
    · simp only [List.mem_singleton] at h
      subst h
      simp
  · simp only [List.mem_singleton] at h
    subst h
    simp

/-- Witness for C9 at a concrete state: the pending entry survives a
re-`connect`. -/
theorem C9_witness :
    (samplePending.connect "ws://replacement").1.messageRequests = [1] ∧
    (samplePending.connect "ws://replacement").1.websocket = some 1 ∧
    ∀ e ∈ (samplePending.connect "ws://replacement").2, ∀ k o, e ≠ Effect.settle k o :=
  C9_connect_keeps_pending samplePending "ws://replacement"

/-- C5 counterexample: calling `connect` from a connected state does not
reset `connected` to false — the flag still reads `true` immediately after
the call, because the body of `connect` never writes `connected`. -/
theorem C5_counterexample :
    (sampleIdle.connect "ws://second").1.connected = true := rfl

/-- C5 (amended): `connect(address)` closes any prior transport session
strictly before establishing the new one (its effect trace is exactly the
close of the old session followed by the creation of the new one, or just
the creation when there was no prior session); it leaves `connected`, the
outbound queue and the pending-request table unchanged; `connected` becomes
false only when the transport delivers a close event to the `onclose` hook,
and true again when the new session signals open to the `onopen` hook. -/
theorem C5_connect_amended (s : WebSocketClient) (url : String) :
    (s.connect url).1.connected = s.connected ∧
    (s.connect url).1.queue = s.queue ∧
    (s.connect url).1.messageRequests = s.messageRequests ∧
    (s.connect url).1.websocket = some s.nextSession ∧
    (∀ w, s.websocket = some w →
      (s.connect url).2 = [Effect.closeSocket w, Effect.newSocket s.nextSession url]) ∧
    (s.websocket = none → (s.connect url).2 = [Effect.newSocket s.nextSession url]) ∧
    s.onclose.1.connected = false ∧
    s.onopen.1.connected = true := by
  refine ⟨rfl, rfl, rfl, rfl, ?_, ?_, rfl, ?_⟩
  · intro w hw
    rw [WebSocketClient.connect_effects, hw]
    rfl
  · intro hw
    rw [WebSocketClient.connect_effects, hw]
    rfl
  · rw [WebSocketClient.onopen_spec]

/-- Witness for C5 (amended): re-connecting from a concrete live session
closes the old session first, then opens the new one. -/
theorem C5_witness :
    (sampleIdle.connect "ws://second").2 =
      [Effect.closeSocket 0, Effect.newSocket 1 "ws://second"] :=
  (C5_connect_amended sampleIdle "ws://second").2.2.2.2.1 0 rfl

/-- C3 counterexample: a broadcast whose result is a three-element array is
present but is NOT a two-element ordered pair, yet the dispatcher is not
silent: the guard is only `Array.isArray`, so it raises the signal named by
the first element with the second element as payload. -/
theorem C3_counterexample :
    isTwoElementPair (Value.arr [.str "a", .str "b", .str "c"]) = false ∧
    (sampleIdle.onmessage
        { result := some (Value.arr [.str "a", .str "b", .str "c"]) }).2 =
      [Effect.emit (Value.str "a") [Value.str "b"]] :=
  ⟨rfl, rfl⟩

/-- C3 (amended): for a message with no matching identifier and no error, a
present result is classified solely by `Array.isArray`: a non-array result
is silently ignored — no signal, no error, no state change — while an array
result of ANY length raises a signal named by its first element with its
second element as payload (JavaScript `undefined` when the array is too
short). -/
theorem C3_non_array_ignored (s : WebSocketClient) (m : InboundMsg) (v : Value)
    (hmatch : WebSocketClient.matchesPending s m = false)
    (herr : m.error = none) (hres : m.result = some v) :
    (isArray v = false → s.onmessage m = (s, [])) ∧
    (∀ xs, v = Value.arr xs →
      s.onmessage m = (s, [Effect.emit (xs.getD 0 .undef) [xs.getD 1 .undef]])) := by
  rw [WebSocketClient.onmessage_not_matching s m hmatch]
  unfold WebSocketClient.broadcastDispatch
  rw [herr, hres]
  constructor
  · intro hv
    cases v <;> simp_all [isArray]
  · intro xs hxs
    rw [hxs]

/-- Witness for C3 (amended): a concrete non-array result is dropped with no
effect at all. -/
theorem C3_witness :
    sampleIdle.onmessage { result := some (Value.str "not-a-pair") } = (sampleIdle, []) :=
  (C3_non_array_ignored sampleIdle { result := some (Value.str "not-a-pair") }
    (Value.str "not-a-pair") rfl rfl rfl).1 rfl

/-- C4 counterexample: the completion does not carry the server-supplied
code and data.  Two error responses for the same pending id that differ in
`code` and `data` but agree on `message` are distinct messages, yet produce
the exact same successor state and effects, because the rejection is built
by `new Error(response.error.message)` from the message string alone. -/
theorem C4_counterexample :
    (some { code := -5, message := "boom", data := some (Value.num 7) } : Option RpcError) ≠
      (some { code := 42, message := "boom" } : Option RpcError) ∧
    samplePending.onmessage
        { id := some 1, error := some { code := -5, message := "boom", data := some (Value.num 7) } } =
      samplePending.onmessage
        { id := some 1, error := some { code := 42, message := "boom" } } := by
  constructor
  · intro h
    simp at h
  · rfl

/-- C4 (amended): when an inbound response carries an error object and an id
matching a pending entry, exactly that entry's promise is rejected with a
JavaScript `Error` carrying the server-supplied message (the error's code
and data are discarded), the entry is removed, and every other pending
entry is untouched. -/
theorem C4_correlated_failure (s : WebSocketClient) (m : InboundMsg) (i : Int) (e : RpcError)
    (hid : m.id = some i) (hpos : 0 < i) (hmem : i.toNat ∈ s.messageRequests)
    (herr : m.error = some e) :
    (s.onmessage m).2 = [Effect.settle i.toNat (Settled.rejected e.message)] ∧
    i.toNat ∉ (s.onmessage m).1.messageRequests ∧
    ∀ j ∈ s.messageRequests, j ≠ i.toNat → j ∈ (s.onmessage m).1.messageRequests := by
  rw [WebSocketClient.onmessage_matching s m i hid hpos hmem]
  refine ⟨?_, ?_, ?_⟩
  · simp [WebSocketClient.resolveWrapper, herr]
  · simp [mapDelete, List.mem_filter]
  · intro j hj hne
    simp [mapDelete, List.mem_filter, hj, hne]

/-- Witness for C4 (amended) at a concrete error response. -/
theorem C4_witness :
    (samplePending.onmessage
        { id := some 1, error := some { code := -1, message := "boom" } }).2 =
      [Effect.settle 1 (Settled.rejected "boom")] :=
  (C4_correlated_failure samplePending
    { id := some 1, error := some { code := -1, message := "boom" } } 1
    { code := -1, message := "boom" } rfl (by decide) (by decide) rfl).1

/-- C1: with identifier `N` pending, the first inbound message whose id is
`N` invokes that entry's completion exactly once — the single `settle`
effect runs the stored resolve wrapper, which resolves with the response's
result or rejects when the response carries an error — and removes the
entry; any subsequent inbound message with id `N` settles nothing: it falls
through to broadcast classification (whose effects never include a
`settle`) and leaves the client state unchanged. -/
theorem C1_exactly_once (s : WebSocketClient) (N : Nat) (m1 m2 : InboundMsg)
    (hN : N ∈ s.messageRequests) (hpos : 0 < N)
    (h1 : m1.id = some (N : Int)) (h2 : m2.id = some (N : Int)) :
    (run s [Act.onmessage m1, Act.onmessage m2]).2 =
      Effect.settle N (WebSocketClient.resolveWrapper m1) ::
        WebSocketClient.broadcastDispatch m2 ∧
    N ∉ (s.onmessage m1).1.messageRequests ∧
    ((s.onmessage m1).1.onmessage m2).1 = (s.onmessage m1).1 ∧
    ∀ e ∈ WebSocketClient.broadcastDispatch m2, ∀ k o, e ≠ Effect.settle k o := by
  have hposI : (0 : Int) < (N : Int) := by exact_mod_cast hpos
  have htoNat : ((N : Int)).toNat = N := by simp
  have hmem : ((N : Int)).toNat ∈ s.messageRequests := by rw [htoNat]; exact hN
  have hm1 : s.onmessage m1 =
      ({ s with messageRequests := mapDelete s.messageRequests N },
       [Effect.settle N (WebSocketClient.resolveWrapper m1)]) := by
    rw [WebSocketClient.onmessage_matching s m1 (N : Int) h1 hposI hmem, htoNat]
  have hnot : WebSocketClient.matchesPending
      ({ s with messageRequests := mapDelete s.messageRequests N }) m2 = false := by
    unfold WebSocketClient.matchesPending
    rw [h2]
    simp [mapDelete, List.mem_filter]
  have hm2 := WebSocketClient.onmessage_not_matching _ m2 hnot
  refine ⟨?_, ?_, ?_, broadcastDispatch_no_settle m2⟩
  · show (step s (Act.onmessage m1)).2 ++
        ((step (step s (Act.onmessage m1)).1 (Act.onmessage m2)).2 ++ []) = _
    show (s.onmessage m1).2 ++ (((s.onmessage m1).1.onmessage m2).2 ++ []) = _
    rw [hm1]
    dsimp only
    rw [hm2]
    simp
  · rw [hm1]
    simp [mapDelete, List.mem_filter]
  · rw [hm1]
    dsimp only
    rw [hm2]

/-- Witness for C1: a pending call with id 1 settles once with its result;
a duplicate response with the same id is classified as a broadcast. -/
theorem C1_witness :
    (run samplePending
        [Act.onmessage { id := some 1, result := some (Value.str "pong") },
         Act.onmessage { id := some 1,
                         result := some (Value.arr [Value.str "evt", Value.str "pay"]) }]).2 =
      [Effect.settle 1 (Settled.resolved (some (Value.str "pong"))),
       Effect.emit (Value.str "evt") [Value.str "pay"]] :=
  (C1_exactly_once samplePending 1
    { id := some 1, result := some (Value.str "pong") }
    { id := some 1, result := some (Value.arr [Value.str "evt", Value.str "pay"]) }
    (by decide) (by decide) rfl rfl).1

/-- C2: notifications issued while disconnected are transmitted, upon the
open event, in exactly the order `notify` was called (after anything already
queued), all of them strictly before the `open` signal is emitted to
subscribers and therefore before any message submitted after reconnection
(here represented by one further `notify`, whose send is last). -/
theorem C2_drain_ordering (s : WebSocketClient) (rs : List Ref) (r' : Ref)
    (hc : s.connected = false) :
    (run s (rs.map Act.notify ++ [Act.onopen, Act.notify r'])).2 =
      ((s.queue ++ rs).map fun r => Effect.send (stamp (s.heap r))) ++
        Effect.emit (Value.str "open") [] :: [Effect.send (stamp (s.heap r'))] := by
  rw [run_append, WebSocketClient.run_notifies_disconnected rs s hc]
  dsimp only
  show [] ++ ((step _ Act.onopen).2 ++ ((step (step _ Act.onopen).1 (Act.notify r')).2 ++ [])) = _
  show [] ++ (WebSocketClient.onopen _).2 ++
      (((WebSocketClient.onopen _).1.notify r').2 ++ []) = _
  rw [WebSocketClient.onopen_spec]
  dsimp only
  rw [WebSocketClient.notify_connected _ r' rfl]
  dsimp only
  simp [stamp_stampHeap, List.append_assoc]

/-- Witness for C2: two queued notifications drain in order, then `open`
fires, then a post-reconnection notification is sent. -/
theorem C2_witness :
    (run (WebSocketClient.initialState sampleHeap)
        ([Act.notify 0, Act.notify 1] ++ [Act.onopen, Act.notify 2])).2 =
      [Effect.send { jsonrpc := some "2.0", method := "ping" },
       Effect.send { jsonrpc := some "2.0", method := "ping" },
       Effect.emit (Value.str "open") [],
       Effect.send { jsonrpc := some "2.0", method := "ping" }] :=
  C2_drain_ordering (WebSocketClient.initialState sampleHeap) [0, 1] 2 rfl

/-- C7: the outbound queue is empty in every state where `connected` is true
and no drain is in progress — drains are atomic inside the open hook, so
every state between interactions qualifies.  Every public operation
(`connect`, `notify`, `rpc`) and transport hook (open, close, message)
preserves the invariant, and it holds along every run from a freshly
constructed client. -/
theorem C7_queue_empty_invariant :
    (∀ (s : WebSocketClient) (a : Act), QueueInv s → QueueInv (step s a).1) ∧
    (∀ (h : Ref → RpcRequest) (acts : List Act),
      QueueInv (run (WebSocketClient.initialState h) acts).1) := by
  refine ⟨queueInv_step, fun h acts => queueInv_run _ acts ?_⟩
  intro hcon
  exact absurd hcon (by simp [WebSocketClient.initialState])

/-- Witness for C7: the invariant is preserved by a concrete `notify` step
from a concrete invariant-satisfying state. -/
theorem C7_witness :
    QueueInv (step sampleIdle (Act.notify 0)).1 :=
  C7_queue_empty_invariant.1 sampleIdle (Act.notify 0) (fun _ => rfl)

/-- C8: along any interaction sequence from a fresh client, the identifiers
assigned by `rpc` are strictly increasing in call order — hence each is
assigned exactly once, none is ever reused for the lifetime of the client
(even after its entry is resolved and removed by an inbound response in the
sequence) — every assigned identifier is positive, and exactly one
identifier is assigned per `rpc` call. -/
theorem C8_identifier_discipline (h : Ref → RpcRequest) (acts : List Act) :
    List.Pairwise (· < ·) (assignedIds (WebSocketClient.initialState h) acts) ∧
    (∀ i ∈ assignedIds (WebSocketClient.initialState h) acts, 0 < i) ∧
    (assignedIds (WebSocketClient.initialState h) acts).length = acts.countP isRpcCall := by
  refine ⟨assignedIds_pairwise acts _, ?_, assignedIds_length acts _⟩
  intro i hi
  have hgt := assignedIds_gt acts _ i hi
  simpa [WebSocketClient.initialState] using hgt

/-- Witness for C8: two `rpc` calls with an interleaved response that
resolves and removes entry 1 still yield the strictly increasing ids 1, 2. -/
theorem C8_witness :
    assignedIds (WebSocketClient.initialState sampleHeap)
        [Act.rpcCall 0, Act.onmessage { id := some 1 }, Act.rpcCall 0] = [1, 2] ∧
    List.Pairwise (· < ·) (assignedIds (WebSocketClient.initialState sampleHeap)
        [Act.rpcCall 0, Act.onmessage { id := some 1 }, Act.rpcCall 0]) :=
  ⟨rfl, (C8_identifier_discipline sampleHeap
    [Act.rpcCall 0, Act.onmessage { id := some 1 }, Act.rpcCall 0]).1⟩

/-- C10: `notify` and `rpc` mutate the caller's request object in place.
After `notify`, the object at the caller's reference carries
`jsonrpc = "2.0"`; while disconnected the queue receives the caller's own
reference; while connected the serialized payload is the caller's object's
current value, stamped.  `rpc` additionally overwrites the object's `id`
field with the newly assigned identifier before queueing or sending, so the
object queued or serialized is the caller's own object. -/
theorem C10_in_place_mutation (s : WebSocketClient) (r : Ref) :
    ((s.notify r).1.heap r = stamp (s.heap r)) ∧
    (s.connected = false → (s.notify r).1.queue = s.queue ++ [r]) ∧
    (s.connected = true → (s.notify r).2 = [Effect.send (stamp (s.heap r))]) ∧
    ((s.rpc r).1.heap r =
      { s.heap r with jsonrpc := some "2.0", id := some (s.messageId + 1) }) ∧
    (s.connected = false → (s.rpc r).1.queue = s.queue ++ [r]) ∧
    (s.connected = true →
      (s.rpc r).2.1 =
        [Effect.send { s.heap r with jsonrpc := some "2.0", id := some (s.messageId + 1) }]) := by
  refine ⟨?_, ?_, ?_, ?_, ?_, ?_⟩
  · rw [WebSocketClient.notify_heap]
    simp [writeHeap]
  · intro hc
    rw [WebSocketClient.notify_queue, hc]
    simp
  · intro hc
    rw [WebSocketClient.notify_connected s r hc]
  · rw [WebSocketClient.rpc_state]
    dsimp only
    rw [WebSocketClient.notify_heap]
    simp [writeHeap, stamp]
  · intro hc
    rw [WebSocketClient.rpc_state]
    dsimp only
    rw [WebSocketClient.notify_queue]
    dsimp only
    rw [hc]
    simp
  · intro hc
    rw [WebSocketClient.rpc_state]
    dsimp only
    rw [WebSocketClient.notify_connected _ r (by exact hc)]
    dsimp only
    simp [writeHeap, stamp]

/-- Witness for C10: a disconnected client queues the caller's reference
with the stamp applied in place; a connected client's `rpc` serializes the
caller's object with the fresh id written into it. -/
theorem C10_witness :
    (((WebSocketClient.initialState sampleHeap).notify 5).1.heap 5 =
        { jsonrpc := some "2.0", method := "ping" }) ∧
    (((WebSocketClient.initialState sampleHeap).notify 5).1.queue = [5]) ∧
    ((sampleIdle.rpc 6).2.1 =
        [Effect.send { jsonrpc := some "2.0", id := some 1, method := "ping" }]) :=
  ⟨(C10_in_place_mutation (WebSocketClient.initialState sampleHeap) 5).1,
   (C10_in_place_mutation (WebSocketClient.initialState sampleHeap) 5).2.1 rfl,
   (C10_in_place_mutation sampleIdle 6).2.2.2.2.2 rfl⟩
